import Mathlib

/-!
# Verification of the A2A Task Registry & JSON-RPC Dispatcher

A shallow embedding of `src/mlflow-a2a-agent/server.py`: the in-memory task
registry (`create_task`, `update_task_status`, `add_task_artifact`), the three
JSON-RPC handlers (`handle_tasks_send`, `handle_tasks_get`,
`handle_tasks_cancel`), the SSE streaming variant
(`handle_tasks_send_stream`), and the dispatcher (`json_rpc_endpoint`).

Python dicts holding JSON values are embedded as structures whose fields are
`Option`-typed (a `none` field is an absent key).  The external responder
(`agent.predict` / `agent.predict_stream`) is an opaque parameter returning
`Except String _`: an `Except.error e` models the responder raising an
exception whose `str()` is `e`.  The registry `tasks : Dict[str, Task]` is an
association list with dict-style insert-or-replace update.
-/

namespace A2A

/-- A JSON "part" dict as read by the server: only the keys `kind`, `type`
and `text` are ever consulted (`part.get("kind")`, `part.get("type")`,
`part.get("text", "")`). A `none` field models an absent key. -/
structure Part where
  kind : Option String
  type : Option String
  text : Option String
deriving DecidableEq, Repr

/-- `TaskMessage`: `role` and `parts` as read via `message.get("role", "user")`
and `message.get("parts", [])`. -/
structure TaskMessage where
  role : Option String
  parts : List Part
deriving DecidableEq, Repr

/-- `TaskArtifact` pydantic model. -/
structure TaskArtifact where
  name : Option String
  description : Option String
  parts : List Part
deriving DecidableEq, Repr

/-- `TaskStatus` pydantic model: `state` plus optional `message`. -/
structure TaskStatus where
  state : String
  message : Option String
deriving DecidableEq, Repr

/-- `Task` pydantic model: `id`, `status`, optional `artifacts`. -/
structure Task where
  id : String
  status : TaskStatus
  artifacts : Option (List TaskArtifact)
deriving DecidableEq, Repr

/-- The global `tasks : Dict[str, Task]` registry, as an association list. -/
abbrev Registry := List (String × Task)

/-- Dict lookup `tasks[task_id]` / `task_id in tasks`. -/
def findTask : Registry → String → Option Task
  | [], _ => none
  | (k, v) :: rest, i => if k = i then some v else findTask rest i

/-- Dict update `tasks[task_id] = task`: replaces in place if the key exists,
otherwise appends (Python dict insertion order). -/
def putTask : Registry → String → Task → Registry
  | [], i, t => [(i, t)]
  | (k, v) :: rest, i, t =>
      if k = i then (k, t) :: rest else (k, v) :: putTask rest i t

/-- `create_task`: builds a fresh `Task` in state `submitted` (no artifacts)
and stores it, generating an id when the caller supplied none.  `genId`
stands for the generated `task_<uuid4 hex>` string. -/
def create_task (tasks : Registry) (task_id : Option String) (genId : String) :
    Registry × Task :=
  let tid := task_id.getD genId
  let task : Task :=
    { id := tid, status := { state := "submitted", message := none },
      artifacts := none }
  (putTask tasks tid task, task)

/-- `update_task_status`: replaces the task's whole `status` (state and
message) when the id is present; no-op otherwise. -/
def update_task_status (tasks : Registry) (task_id : String) (state : String)
    (message : Option String) : Registry :=
  match findTask tasks task_id with
  | none => tasks
  | some t =>
      putTask tasks task_id { t with status := { state := state, message := message } }

/-- `add_task_artifact`: appends an artifact, initialising `artifacts` to `[]`
when it is `None`; no-op when the id is absent. -/
def add_task_artifact (tasks : Registry) (task_id : String)
    (artifact : TaskArtifact) : Registry :=
  match findTask tasks task_id with
  | none => tasks
  | some t =>
      let existing := t.artifacts.getD []
      putTask tasks task_id { t with artifacts := some (existing ++ [artifact]) }

/-- The single `input` entry of the `ResponsesAgentRequest` handed to the
responder: `{"role": ..., "content": ...}`. -/
structure AgentRequestInput where
  role : String
  content : String
deriving DecidableEq, Repr

/-- An item of `response.output`; `text` is `some` when the item exposes a
`text` attribute/key. -/
structure AgentOutputItem where
  text : Option String
deriving DecidableEq, Repr

/-- The responder's non-streaming response. -/
structure AgentResponse where
  output : List AgentOutputItem
deriving DecidableEq, Repr

/-- The content-extraction loop of `handle_tasks_send`:
`content += part.get("text", "")` for every part whose `kind` or `type`
is `"text"`. -/
def extract_content (parts : List Part) : String :=
  parts.foldl
    (fun content part =>
      if part.kind = some "text" ∨ part.type = some "text" then
        content ++ (part.text.getD "")
      else content) ""

/-- Building the `ResponsesAgentRequest` from the A2A message:
`{"role": message.get("role", "user"), "content": content}`. -/
def build_request (message : TaskMessage) : AgentRequestInput :=
  { role := message.role.getD "user", content := extract_content message.parts }

/-- The output-text extraction loop over `response.output`:
`output_text += output_item.text` for every item carrying text. -/
def extract_output_text (output : List AgentOutputItem) : String :=
  output.foldl (fun acc item => acc ++ (item.text.getD "")) ""

/-- The `params` dict as consulted by the handlers: keys `message` and `id`. -/
structure RpcParams where
  message : Option TaskMessage
  id : Option String
deriving DecidableEq, Repr

/-- The empty message dict `{}` used by `params.get("message", {})`. -/
def emptyMessage : TaskMessage := { role := none, parts := [] }

/-- A raised `fastapi.HTTPException`. -/
structure HTTPExc where
  status_code : Nat
  detail : String
deriving DecidableEq, Repr

/-- String interpolation of a possibly-absent id: Python renders `None`. -/
def idText : Option String → String
  | none => "None"
  | some s => s

/-- The non-streaming responder `agent.predict`: `Except.error e` models an
exception with `str(e) = e`. -/
abbrev Predict := AgentRequestInput → Except String AgentResponse

/-- `handle_tasks_send` (non-streaming): create the task, mark it `working`,
run the responder; on success attach the `"response"` artifact and mark
`completed`, on exception mark `failed` with the error text; finally return
`tasks[task_id]`. -/
def handle_tasks_send (predict : Predict) (tasks : Registry)
    (params : RpcParams) (genId : String) : Registry × Task :=
  let message := params.message.getD emptyMessage
  let created := create_task tasks params.id genId
  let task_id := created.2.id
  let tasks2 := update_task_status created.1 task_id "working" none
  let tasks3 :=
    match predict (build_request message) with
    | .ok response =>
        let output_text := extract_output_text response.output
        let artifact : TaskArtifact :=
          { name := some "response", description := none,
            parts := [{ kind := none, type := some "text", text := some output_text }] }
        update_task_status (add_task_artifact tasks2 task_id artifact)
          task_id "completed" none
    | .error e => update_task_status tasks2 task_id "failed" (some e)
  (tasks3, (findTask tasks3 task_id).getD created.2)

/-- `handle_tasks_get`: raises 404 when the id is not in the registry,
otherwise returns the stored record; never mutates the registry. -/
def handle_tasks_get (tasks : Registry) (params : RpcParams) :
    Registry × Except HTTPExc Task :=
  match params.id with
  | none => (tasks, .error ⟨404, "Task None not found"⟩)
  | some tid =>
      match findTask tasks tid with
      | none => (tasks, .error ⟨404, "Task " ++ tid ++ " not found"⟩)
      | some t => (tasks, .ok t)

/-- `handle_tasks_cancel`: raises 404 when the id is not in the registry,
otherwise unconditionally sets status to `canceled` and returns the updated
record. -/
def handle_tasks_cancel (tasks : Registry) (params : RpcParams) :
    Registry × Except HTTPExc Task :=
  match params.id with
  | none => (tasks, .error ⟨404, "Task None not found"⟩)
  | some tid =>
      match findTask tasks tid with
      | none => (tasks, .error ⟨404, "Task " ++ tid ++ " not found"⟩)
      | some t =>
          let tasks2 := update_task_status tasks tid "canceled" none
          (tasks2, .ok ((findTask tasks2 tid).getD t))

/-- An event yielded by the responder's `predict_stream`; `itemText` is the
text carried by `event.item` when present. -/
structure StreamAgentEvent where
  type : String
  itemText : Option String
deriving DecidableEq, Repr

/-- The streaming responder `agent.predict_stream`, drained eagerly by
`stream_agent` inside the handler; `Except.error e` models an exception. -/
abbrev PredictStream := AgentRequestInput → Except String (List StreamAgentEvent)

/-- A JSON event emitted on the SSE connection by `handle_tasks_send_stream`
(the `json.dumps` payloads, one constructor per `"type"` value). -/
inductive StreamEvent where
  | statusUpdate (taskId : String) (state : String) (message : Option String)
  | artifactUpdate (taskId : String) (artifactId : String) (parts : List Part)
  | artifactDone (taskId : String) (artifactId : String) (parts : List Part)
  | taskComplete (taskId : String) (state : String)
deriving DecidableEq, Repr

/-- The `"type"` string of an emitted SSE event. -/
def eventType : StreamEvent → String
  | .statusUpdate _ _ _ => "task.status.update"
  | .artifactUpdate _ _ _ => "task.artifact.update"
  | .artifactDone _ _ _ => "task.artifact.done"
  | .taskComplete _ _ => "task.complete"

/-- One step of the `for event in events:` loop of `handle_tasks_send_stream`:
on a `response.output_item.done` event, overwrite `accumulated_text` with the
item's text (kept unchanged when the item carries none) and yield a
`task.artifact.update` event carrying the new accumulated text. -/
def stream_step (task_id artifact_id : String)
    (acc : String × List StreamEvent) (ev : StreamAgentEvent) :
    String × List StreamEvent :=
  if ev.type = "response.output_item.done" then
    let newText := ev.itemText.getD acc.1
    (newText, acc.2 ++
      [.artifactUpdate task_id artifact_id
        [{ kind := some "text", type := none, text := some newText }]])
  else acc

/-- The task id used by the streaming path:
`params.get("id") or f"task_..."` — the generated id is used when the
caller-supplied id is falsy (absent or the empty string). -/
def stream_task_id (params : RpcParams) (genId : String) : String :=
  match params.id with
  | none => genId
  | some s => if s = "" then genId else s

/-- `handle_tasks_send_stream`: the SSE variant of send.  Yields a `working`
status update, then (inside `try`) runs the responder; on success one
`task.artifact.update` per `response.output_item.done` event, a
`task.artifact.done`, and a `task.complete`, with the registry task marked
`completed` and given the `"response"` artifact; on exception the registry
task is marked `failed` and a failed `task.status.update` is yielded.
`genId` stands for the generated `task_<hex>` id (used when `params.get("id")`
is falsy, i.e. absent or the empty string); `artId` for the generated
`artifact_<hex>` id. -/
def handle_tasks_send_stream (predict_stream : PredictStream) (tasks : Registry)
    (params : RpcParams) (genId artId : String) : Registry × List StreamEvent :=
  let message := params.message.getD emptyMessage
  let created := create_task tasks (some (stream_task_id params genId)) genId
  let task_id := created.2.id
  let tasks2 := update_task_status created.1 task_id "working" none
  let ev0 : StreamEvent := .statusUpdate task_id "working" none
  match predict_stream (build_request message) with
  | .ok events =>
      let folded := events.foldl (stream_step task_id artId) ("", [])
      let accumulated := folded.1
      let artifact : TaskArtifact :=
        { name := some "response", description := none,
          parts := [{ kind := none, type := some "text", text := some accumulated }] }
      let tasks3 := update_task_status (add_task_artifact tasks2 task_id artifact)
        task_id "completed" none
      (tasks3, ev0 :: folded.2 ++
        [.artifactDone task_id artId
           [{ kind := some "text", type := none, text := some accumulated }],
         .taskComplete task_id "completed"])
  | .error e =>
      (update_task_status tasks2 task_id "failed" (some e),
       [ev0, .statusUpdate task_id "failed" (some e)])

/-- The JSON value found at the request body's `id` key (`body.get("id")`
gives `None` both for an absent key and an explicit `null`). -/
inductive JsonId where
  | null
  | num (n : Int)
  | str (s : String)
deriving DecidableEq, Repr

/-- The parsed JSON-RPC request body, as consulted by `json_rpc_endpoint`:
keys `jsonrpc`, `method`, `params`, `id`. -/
structure RpcBody where
  jsonrpc : Option String
  method : Option String
  params : Option RpcParams
  id : JsonId
deriving DecidableEq, Repr

/-- A response produced by `json_rpc_endpoint`: a JSON-RPC success envelope
carrying a task record, a JSON-RPC error envelope, or an SSE event stream.
`httpStatus` is the HTTP status code (`JSONResponse` defaults to 200). -/
inductive RpcResponse where
  | resultTask (httpStatus : Nat) (result : Task) (id : JsonId)
  | rpcError (httpStatus : Nat) (code : Int) (message : String) (id : JsonId)
  | sse (events : List StreamEvent)
deriving DecidableEq, Repr

/-- The method names routed to the SSE path when the client accepts
`text/event-stream`. -/
def sse_method_names : List String :=
  ["tasks/send", "messages/send", "tasks/sendStreaming", "messages/sendStreaming"]

/-- `method in [...]` for the SSE branch (a non-string or absent method is
never in the list). -/
def is_sse_method : Option String → Bool
  | none => false
  | some m => sse_method_names.contains m

/-- `json_rpc_endpoint` (`POST /`), after successful JSON body parsing:
validates `jsonrpc == "2.0"`, takes the SSE path for streaming-send methods
when the `Accept` header contains `text/event-stream` (`wantsSse`), otherwise
dispatches on `method` (`-32601` when unknown), wrapping a handler's return
value in a `result` envelope and a raised `HTTPException` in a `-32000`
error envelope. -/
def json_rpc_endpoint (predict : Predict) (predict_stream : PredictStream)
    (tasks : Registry) (body : RpcBody) (wantsSse : Bool) (genId artId : String) :
    Registry × RpcResponse :=
  if body.jsonrpc ≠ some "2.0" then
    (tasks, .rpcError 400 (-32600) "Invalid Request: missing jsonrpc 2.0" body.id)
  else
    let params := body.params.getD { message := none, id := none }
    if is_sse_method body.method && wantsSse then
      let out := handle_tasks_send_stream predict_stream tasks params genId artId
      (out.1, .sse out.2)
    else
      if body.method = some "tasks/send" then
        let out := handle_tasks_send predict tasks params genId
        (out.1, .resultTask 200 out.2 body.id)
      else if body.method = some "tasks/get" then
        let out := handle_tasks_get tasks params
        match out.2 with
        | .ok task => (out.1, .resultTask 200 task body.id)
        | .error e => (out.1, .rpcError e.status_code (-32000) e.detail body.id)
      else if body.method = some "tasks/cancel" then
        let out := handle_tasks_cancel tasks params
        match out.2 with
        | .ok task => (out.1, .resultTask 200 task body.id)
        | .error e => (out.1, .rpcError e.status_code (-32000) e.detail body.id)
      else
        (tasks, .rpcError 200 (-32601)
          ("Method not found: " ++ idText body.method) body.id)

/-! ## Derived definitions, reachability, and concrete fixtures -/

/-- The `"response"` artifact attached on success, carrying `output_text`. -/
def response_artifact (output_text : String) : TaskArtifact :=
  { name := some "response", description := none,
    parts := [{ kind := none, type := some "text", text := some output_text }] }

/-- The task record in which a non-streaming `tasks/send` leaves the registry:
`completed` with the single `"response"` artifact on responder success,
`failed` with the error text on responder exception. -/
def sent_task (predict : Predict) (params : RpcParams) (genId : String) : Task :=
  let tid := params.id.getD genId
  match predict (build_request (params.message.getD emptyMessage)) with
  | .ok response =>
      { id := tid, status := { state := "completed", message := none },
        artifacts := some [response_artifact (extract_output_text response.output)] }
  | .error e =>
      { id := tid, status := { state := "failed", message := some e },
        artifacts := none }

/-- The task record in which a streaming `tasks/send` leaves the registry. -/
def streamed_task (predict_stream : PredictStream) (params : RpcParams)
    (genId : String) : Task :=
  let tid := stream_task_id params genId
  match predict_stream (build_request (params.message.getD emptyMessage)) with
  | .ok events =>
      let accumulated := (events.foldl (stream_step tid "") ("", [])).1
      { id := tid, status := { state := "completed", message := none },
        artifacts := some [response_artifact accumulated] }
  | .error e =>
      { id := tid, status := { state := "failed", message := some e },
        artifacts := none }

/-- Stated from the spec's words — "the in-order concatenation of the `text`
field of every part whose kind or type field equals `"text"`" — to be compared
with the source-side `extract_content`. -/
def spec_text_concat (parts : List Part) : String :=
  String.join ((parts.filter
    (fun p => p.kind == some "text" || p.type == some "text")).map
    (fun p => p.text.getD ""))

/-- Registries reachable from the empty startup registry by any sequence of
JSON-RPC handler executions (with arbitrary responder behaviour). -/
inductive Reachable : Registry → Prop where
  | empty : Reachable []
  | send (predict : Predict) (params : RpcParams) (genId : String)
      {r : Registry} : Reachable r →
      Reachable (handle_tasks_send predict r params genId).1
  | get (params : RpcParams) {r : Registry} : Reachable r →
      Reachable (handle_tasks_get r params).1
  | cancel (params : RpcParams) {r : Registry} : Reachable r →
      Reachable (handle_tasks_cancel r params).1
  | sendStream (predict_stream : PredictStream) (params : RpcParams)
      (genId artId : String) {r : Registry} : Reachable r →
      Reachable (handle_tasks_send_stream predict_stream r params genId artId).1

/-- The invariant: every stored task whose state is neither `failed` nor
`canceled` has a `none` status message. -/
def MsgInv (r : Registry) : Prop :=
  ∀ tid t, findTask r tid = some t →
    t.status.state ≠ "failed" → t.status.state ≠ "canceled" →
    t.status.message = none

/-- A responder that answers `"world"`. -/
def predict_world : Predict := fun _ => .ok { output := [{ text := some "world" }] }

/-- A responder that raises an exception whose text is `"upstream down"`. -/
def predict_down : Predict := fun _ => .error "upstream down"

/-- A streaming responder that raises `"boom"`. -/
def stream_boom : PredictStream := fun _ => .error "boom"

/-- A streaming responder yielding one completed output item `"hi"`. -/
def stream_hi : PredictStream :=
  fun _ => .ok [{ type := "response.output_item.done", itemText := some "hi" }]

/-- The default `{}` value of `body.get("params", {})`. -/
def emptyParams : RpcParams := { message := none, id := none }

/-- The error code, if any, carried by a dispatcher response. -/
def response_error_code : RpcResponse → Option Int
  | .rpcError _ c _ _ => some c
  | _ => none

/-- A stored task in terminal state `completed`, for concrete witnesses. -/
def completed_t1 : Task :=
  { id := "t1", status := { state := "completed", message := none },
    artifacts := none }

/-- A stored completed task `"t1"` carrying an old artifact, for the C10
witness. -/
def old_t1 : Task :=
  { id := "t1", status := { state := "completed", message := none },
    artifacts := some [response_artifact "old"] }

/-! ## Registry lemmas -/

lemma findTask_putTask (r : Registry) (k : String) (t : Task) (i : String) :
    findTask (putTask r k t) i = if i = k then some t else findTask r i := by
  induction r with
  | nil =>
      by_cases h : i = k
      · subst h; simp [putTask, findTask]
      · simp only [putTask, findTask, if_neg h,
          if_neg (fun hh : k = i => h hh.symm)]
  | cons hd tl ih =>
      obtain ⟨a, v⟩ := hd
      by_cases h1 : a = k
      · subst h1
        by_cases h2 : i = a
        · subst h2; simp [putTask, findTask]
        · simp only [putTask, if_pos rfl, findTask,
            if_neg (fun hh : a = i => h2 hh.symm), if_neg h2]
      · by_cases h2 : a = i
        · subst h2
          simp [putTask, findTask, h1]
        · simp [putTask, findTask, h1, h2, ih]

lemma putTask_putTask (r : Registry) (k : String) (a b : Task) :
    putTask (putTask r k a) k b = putTask r k b := by
  induction r with
  | nil => simp [putTask]
  | cons hd tl ih =>
      obtain ⟨x, v⟩ := hd
      by_cases h : x = k <;> simp [putTask, h, ih]

lemma update_task_status_putTask (r : Registry) (k : String) (t : Task)
    (st : String) (msg : Option String) :
    update_task_status (putTask r k t) k st msg =
      putTask r k { t with status := { state := st, message := msg } } := by
  simp [update_task_status, findTask_putTask, putTask_putTask]

lemma add_task_artifact_putTask (r : Registry) (k : String) (t : Task)
    (a : TaskArtifact) :
    add_task_artifact (putTask r k t) k a =
      putTask r k { t with artifacts := some (t.artifacts.getD [] ++ [a]) } := by
  simp [add_task_artifact, findTask_putTask, putTask_putTask]

/-! ## Characterisation of the send handlers -/

lemma handle_tasks_send_spec (predict : Predict) (r : Registry)
    (params : RpcParams) (genId : String) :
    handle_tasks_send predict r params genId =
      (putTask r (params.id.getD genId) (sent_task predict params genId),
       sent_task predict params genId) := by
  cases h : predict (build_request (params.message.getD emptyMessage)) with
  | ok response =>
      simp [handle_tasks_send, create_task, h, sent_task, response_artifact,
        update_task_status_putTask, add_task_artifact_putTask, findTask_putTask]
  | error e =>
      simp [handle_tasks_send, create_task, h, sent_task,
        update_task_status_putTask, findTask_putTask]

lemma handle_tasks_cancel_spec (r : Registry) (m : Option TaskMessage)
    (tid : String) (t : Task) (h : findTask r tid = some t) :
    handle_tasks_cancel r { message := m, id := some tid } =
      (putTask r tid { t with status := { state := "canceled", message := none } },
       .ok { t with status := { state := "canceled", message := none } }) := by
  simp [handle_tasks_cancel, h, update_task_status, findTask_putTask]

lemma stream_step_fst (tid aid : String) (acc : String × List StreamEvent)
    (ev : StreamAgentEvent) : (stream_step tid aid acc ev).1 =
      (if ev.type = "response.output_item.done" then ev.itemText.getD acc.1 else acc.1) := by
  by_cases h : ev.type = "response.output_item.done" <;> simp [stream_step, h]

lemma stream_fold_fst (tid aid tid2 aid2 : String)
    (evs : List StreamAgentEvent) :
    ∀ (s : String) (acc acc2 : List StreamEvent),
      (evs.foldl (stream_step tid aid) (s, acc)).1 =
      (evs.foldl (stream_step tid2 aid2) (s, acc2)).1 := by
  induction evs with
  | nil => intro s acc acc2; rfl
  | cons ev rest ih =>
      intro s acc acc2
      simp only [List.foldl_cons]
      by_cases h : ev.type = "response.output_item.done"
      · simp only [stream_step, if_pos h]
        exact ih _ _ _
      · simp only [stream_step, if_neg h]
        exact ih _ _ _

lemma handle_tasks_send_stream_fst (predict_stream : PredictStream)
    (r : Registry) (params : RpcParams) (genId artId : String) :
    (handle_tasks_send_stream predict_stream r params genId artId).1 =
      putTask r (stream_task_id params genId)
        (streamed_task predict_stream params genId) := by
  cases h : predict_stream (build_request (params.message.getD emptyMessage)) with
  | ok events =>
      simp only [handle_tasks_send_stream, create_task, Option.getD_some, h,
        streamed_task, update_task_status_putTask, add_task_artifact_putTask]
      rw [stream_fold_fst _ artId (stream_task_id params genId) "" events _ _ []]
      simp [response_artifact]
  | error e =>
      simp [handle_tasks_send_stream, create_task, h, streamed_task,
        update_task_status_putTask]

/-! ## Spec-side text concatenation -/

lemma join_cons (x : String) (l : List String) :
    String.join (x :: l) = x ++ String.join l := by
  apply String.ext
  simp [String.join_eq, String.data_append]

lemma spec_text_concat_cons_pos (p : Part) (rest : List Part)
    (h : p.kind = some "text" ∨ p.type = some "text") :
    spec_text_concat (p :: rest) = (p.text.getD "") ++ spec_text_concat rest := by
  have hb : (p.kind == some "text" || p.type == some "text") = true := by
    rcases h with h | h <;> simp [h]
  simp [spec_text_concat, List.filter_cons, hb, join_cons]

lemma spec_text_concat_cons_neg (p : Part) (rest : List Part)
    (h : ¬(p.kind = some "text" ∨ p.type = some "text")) :
    spec_text_concat (p :: rest) = spec_text_concat rest := by
  push_neg at h
  have hb : (p.kind == some "text" || p.type == some "text") = false := by
    simp [h.1, h.2]
  simp [spec_text_concat, List.filter_cons, hb]

lemma extract_content_go (parts : List Part) (acc : String) :
    parts.foldl
      (fun content part =>
        if part.kind = some "text" ∨ part.type = some "text" then
          content ++ (part.text.getD "")
        else content) acc = acc ++ spec_text_concat parts := by
  induction parts generalizing acc with
  | nil =>
      show acc = acc ++ String.join []
      rw [show String.join [] = "" from rfl, String.append_empty]
  | cons p rest ih =>
      by_cases h : p.kind = some "text" ∨ p.type = some "text"
      · simp only [List.foldl_cons, if_pos h, ih,
          spec_text_concat_cons_pos p rest h, String.append_assoc]
      · simp only [List.foldl_cons, if_neg h, ih,
          spec_text_concat_cons_neg p rest h]

lemma extract_content_eq_spec (parts : List Part) :
    extract_content parts = spec_text_concat parts := by
  rw [extract_content, extract_content_go, String.empty_append]

/-! ## Shape of the SSE event stream -/

lemma stream_fold_snd_types (tid aid : String) (evs : List StreamAgentEvent) :
    ∀ (s : String) (acc : List StreamEvent),
      ∃ n, ((evs.foldl (stream_step tid aid) (s, acc)).2).map eventType =
        acc.map eventType ++ List.replicate n "task.artifact.update" := by
  induction evs with
  | nil =>
      intro s acc
      exact ⟨0, by simp⟩
  | cons ev rest ih =>
      intro s acc
      simp only [List.foldl_cons]
      by_cases h : ev.type = "response.output_item.done"
      · simp only [stream_step, if_pos h]
        obtain ⟨n, hn⟩ := ih (ev.itemText.getD s) _
        refine ⟨n + 1, ?_⟩
        rw [hn]
        simp [eventType, List.replicate_succ, List.append_assoc]
      · simp only [stream_step, if_neg h]
        exact ih s acc

/-! ## Reachable registries and the status-message invariant -/

lemma MsgInv_putTask {r : Registry} (hr : MsgInv r) {k : String} {t : Task}
    (ht : t.status.state ≠ "failed" → t.status.state ≠ "canceled" →
      t.status.message = none) :
    MsgInv (putTask r k t) := by
  intro tid u hu h1 h2
  rw [findTask_putTask] at hu
  by_cases h : tid = k
  · rw [if_pos h] at hu
    cases hu
    exact ht h1 h2
  · rw [if_neg h] at hu
    exact hr tid u hu h1 h2

lemma handle_tasks_get_fst (r : Registry) (p : RpcParams) :
    (handle_tasks_get r p).1 = r := by
  rcases p with ⟨m, _ | tid⟩
  · rfl
  · cases h : findTask r tid <;> simp [handle_tasks_get, h]

lemma MsgInv_reachable {r : Registry} (h : Reachable r) : MsgInv r := by
  induction h with
  | empty =>
      intro tid t ht
      simp [findTask] at ht
  | send predict params genId _ ih =>
      rw [handle_tasks_send_spec]
      refine MsgInv_putTask ih ?_
      unfold sent_task
      cases hp : predict (build_request (params.message.getD emptyMessage)) with
      | ok response => intro _ _; rfl
      | error e => intro h1 _; exact absurd rfl h1
  | get params _ ih =>
      rw [handle_tasks_get_fst]
      exact ih
  | cancel params hprev ih =>
      rename_i r0
      rcases params with ⟨m, _ | tid⟩
      · exact ih
      · cases hf : findTask r0 tid with
        | none =>
            have hc : handle_tasks_cancel r0 { message := m, id := some tid } =
                (r0, .error ⟨404, "Task " ++ tid ++ " not found"⟩) := by
              simp [handle_tasks_cancel, hf]
            rw [hc]
            exact ih
        | some t =>
            rw [handle_tasks_cancel_spec r0 m tid t hf]
            refine MsgInv_putTask ih ?_
            intro _ h2
            exact absurd rfl h2
  | sendStream predict_stream params genId artId _ ih =>
      rw [handle_tasks_send_stream_fst]
      refine MsgInv_putTask ih ?_
      unfold streamed_task
      cases hp : predict_stream (build_request (params.message.getD emptyMessage)) with
      | ok events => intro _ _; rfl
      | error e => intro h1 _; exact absurd rfl h1

/-! ## Claims -/

/-- C1: for every non-streaming `tasks/send` call, the task record returned
as the JSON-RPC result has `status.state` `"completed"` (responder returned
normally) or `"failed"` (responder raised) — never `"submitted"` or
`"working"`. -/
theorem C1_send_result_terminal (predict : Predict) (tasks : Registry)
    (params : RpcParams) (genId : String) :
    (handle_tasks_send predict tasks params genId).2.status.state = "completed" ∨
    (handle_tasks_send predict tasks params genId).2.status.state = "failed" := by
  rw [handle_tasks_send_spec]
  cases hp : predict (build_request (params.message.getD emptyMessage)) with
  | ok response => exact Or.inl (by simp [sent_task, hp])
  | error e => exact Or.inr (by simp [sent_task, hp])

/-- C2 counterexample: a task that reached the terminal state `"completed"`
(via a successful `tasks/send`) has its status changed to `"canceled"` by a
subsequent `tasks/cancel` — so a further transition does occur after a
terminal state. -/
theorem C2_counterexample :
    (findTask (handle_tasks_send predict_world []
        { message := none, id := some "t1" } "task_g").1 "t1").map
        (fun t => t.status.state) = some "completed" ∧
    (findTask (handle_tasks_cancel
        (handle_tasks_send predict_world []
          { message := none, id := some "t1" } "task_g").1
        { message := none, id := some "t1" }).1 "t1").map
        (fun t => t.status.state) = some "canceled" := by
  decide

/-- C2 (amended): after a task reaches a terminal state, `tasks/get` performs
no transition (registry unchanged, record returned as stored); however
`tasks/cancel` still transitions the task — terminal states included — to
`"canceled"`, and `tasks/send` with the same id replaces the record, so
terminal states are not absorbing. -/
theorem C2_terminal_behavior (r : Registry) (m m2 : Option TaskMessage)
    (tid : String) (t : Task) (hf : findTask r tid = some t)
    (hterm : t.status.state = "completed" ∨ t.status.state = "failed" ∨
      t.status.state = "canceled") :
    (handle_tasks_get r { message := m, id := some tid }).1 = r ∧
    (handle_tasks_get r { message := m, id := some tid }).2 = .ok t ∧
    (handle_tasks_cancel r { message := m2, id := some tid }).2 =
      .ok { t with status := { state := "canceled", message := none } } := by
  refine ⟨handle_tasks_get_fst r _, ?_, ?_⟩
  · simp [handle_tasks_get, hf]
  · rw [handle_tasks_cancel_spec r m2 tid t hf]

/-- Witness for C2 (amended) on a concrete completed task. -/
theorem C2_terminal_behavior_witness :
    (handle_tasks_get [("t1", completed_t1)] { message := none, id := some "t1" }).1 =
      [("t1", completed_t1)] ∧
    (handle_tasks_get [("t1", completed_t1)] { message := none, id := some "t1" }).2 =
      .ok completed_t1 ∧
    (handle_tasks_cancel [("t1", completed_t1)] { message := none, id := some "t1" }).2 =
      .ok { completed_t1 with status := { state := "canceled", message := none } } :=
  C2_terminal_behavior [("t1", completed_t1)] none none "t1" completed_t1
    (by decide) (Or.inl rfl)

/-- C3: when the responder raises during a non-streaming `tasks/send`, the
dispatcher still answers with a `result` envelope (HTTP 200), not a JSON-RPC
error, and the task record in it is `failed` with `status.message` equal to
the exception's string representation. -/
theorem C3_send_failure_in_result (predict : Predict) (ps : PredictStream)
    (tasks : Registry) (body : RpcBody) (genId artId : String) (e : String)
    (h1 : body.jsonrpc = some "2.0") (h2 : body.method = some "tasks/send")
    (h3 : predict (build_request
      (((body.params.getD emptyParams).message).getD emptyMessage)) = .error e) :
    json_rpc_endpoint predict ps tasks body false genId artId =
      (putTask tasks ((body.params.getD emptyParams).id.getD genId)
        { id := (body.params.getD emptyParams).id.getD genId,
          status := { state := "failed", message := some e }, artifacts := none },
       .resultTask 200
        { id := (body.params.getD emptyParams).id.getD genId,
          status := { state := "failed", message := some e },
          artifacts := none } body.id) := by
  simp only [emptyParams] at h3 ⊢
  simp [json_rpc_endpoint, h1, h2, handle_tasks_send_spec, sent_task, h3]

/-- Witness for C3: concrete failing responder `"upstream down"`. -/
theorem C3_send_failure_in_result_witness :
    json_rpc_endpoint predict_down stream_boom []
      ⟨some "2.0", some "tasks/send", some ⟨none, some "t1"⟩, .num 7⟩
      false "task_g" "a1" =
      ([("t1", ⟨"t1", ⟨"failed", some "upstream down"⟩, none⟩)],
       .resultTask 200 ⟨"t1", ⟨"failed", some "upstream down"⟩, none⟩ (.num 7)) :=
  C3_send_failure_in_result predict_down stream_boom []
    ⟨some "2.0", some "tasks/send", some ⟨none, some "t1"⟩, .num 7⟩
    "task_g" "a1" "upstream down" rfl rfl rfl

/-- C4: `tasks/cancel` on any stored task unconditionally sets its state to
`"canceled"` (whatever the current state, `"completed"` included), and a
second cancel on the same id again succeeds and again returns a `"canceled"`
record. -/
theorem C4_cancel_unconditional_idempotent (r : Registry)
    (m m2 : Option TaskMessage) (tid : String) (t : Task)
    (hf : findTask r tid = some t) :
    (handle_tasks_cancel r { message := m, id := some tid }).2 =
      .ok { t with status := { state := "canceled", message := none } } ∧
    (handle_tasks_cancel (handle_tasks_cancel r { message := m, id := some tid }).1
        { message := m2, id := some tid }).2 =
      .ok { t with status := { state := "canceled", message := none } } := by
  have h1 := handle_tasks_cancel_spec r m tid t hf
  have hfind : findTask (handle_tasks_cancel r { message := m, id := some tid }).1 tid =
      some { t with status := { state := "canceled", message := none } } := by
    rw [h1, findTask_putTask, if_pos rfl]
  refine ⟨by rw [h1], ?_⟩
  rw [handle_tasks_cancel_spec _ m2 tid _ hfind]

/-- Witness for C4: double cancel of a concrete completed task. -/
theorem C4_cancel_unconditional_idempotent_witness :
    (handle_tasks_cancel [("t1", completed_t1)] { message := none, id := some "t1" }).2 =
      .ok { completed_t1 with status := { state := "canceled", message := none } } ∧
    (handle_tasks_cancel
        (handle_tasks_cancel [("t1", completed_t1)] { message := none, id := some "t1" }).1
        { message := none, id := some "t1" }).2 =
      .ok { completed_t1 with status := { state := "canceled", message := none } } :=
  C4_cancel_unconditional_idempotent [("t1", completed_t1)] none none "t1"
    completed_t1 (by decide)

/-- C5: `tasks/get` on an id never submitted yields a JSON-RPC application
error with code `-32000` (no crash, no reserved framing code), and the
registry is left unchanged — no task record is created for that id. -/
theorem C5_get_unknown_id (predict : Predict) (ps : PredictStream)
    (tasks : Registry) (body : RpcBody) (wantsSse : Bool) (genId artId tid : String)
    (h1 : body.jsonrpc = some "2.0") (h2 : body.method = some "tasks/get")
    (h3 : (body.params.getD emptyParams).id = some tid)
    (h4 : findTask tasks tid = none) :
    json_rpc_endpoint predict ps tasks body wantsSse genId artId =
      (tasks, .rpcError 404 (-32000) ("Task " ++ tid ++ " not found") body.id) := by
  simp only [emptyParams] at h3
  have h0 : is_sse_method (some "tasks/get") = false := rfl
  simp [json_rpc_endpoint, h1, h2, h0, handle_tasks_get, h3, h4]

/-- Witness for C5: `tasks/get` on id `"ghost"` over the empty registry. -/
theorem C5_get_unknown_id_witness :
    json_rpc_endpoint predict_world stream_hi []
      { jsonrpc := some "2.0", method := some "tasks/get",
        params := some { message := none, id := some "ghost" }, id := .null }
      false "task_g" "a1" =
      ([], .rpcError 404 (-32000) "Task ghost not found" .null) :=
  C5_get_unknown_id predict_world stream_hi []
    { jsonrpc := some "2.0", method := some "tasks/get",
      params := some { message := none, id := some "ghost" }, id := .null }
    false "task_g" "a1" "ghost" rfl rfl rfl rfl

/-- C6 counterexample: a well-formed JSON-RPC 2.0 request whose method,
`"messages/send"`, is none of `tasks/send`, `tasks/get`, `tasks/cancel`,
served with an Accept header requesting `text/event-stream`, is answered by
an SSE event stream — not by any JSON-RPC error, let alone `-32601`. -/
theorem C6_counterexample :
    response_error_code
      (json_rpc_endpoint predict_world stream_boom []
        { jsonrpc := some "2.0", method := some "messages/send",
          params := none, id := .num 1 } true "task_g" "a1").2 = none ∧
    (json_rpc_endpoint predict_world stream_boom []
      { jsonrpc := some "2.0", method := some "messages/send",
        params := none, id := .num 1 } true "task_g" "a1").2 =
      .sse [.statusUpdate "task_g" "working" none,
            .statusUpdate "task_g" "failed" (some "boom")] := by
  decide

/-- C6 (amended): a well-formed JSON-RPC 2.0 request whose method is not one
of the three task methods is answered with a `-32601` Method-not-found error
echoing the caller's `id` — provided the request does not take the SSE path,
i.e. its method is not one of the streaming-send aliases (`messages/send`,
`tasks/sendStreaming`, `messages/sendStreaming`) with an Accept header
requesting `text/event-stream`. -/
theorem C6_method_not_found (predict : Predict) (ps : PredictStream)
    (tasks : Registry) (body : RpcBody) (wantsSse : Bool) (genId artId : String)
    (m : String)
    (h1 : body.jsonrpc = some "2.0") (h2 : body.method = some m)
    (h3 : m ≠ "tasks/send") (h4 : m ≠ "tasks/get") (h5 : m ≠ "tasks/cancel")
    (h6 : is_sse_method (some m) = false ∨ wantsSse = false) :
    json_rpc_endpoint predict ps tasks body wantsSse genId artId =
      (tasks, .rpcError 200 (-32601) ("Method not found: " ++ m) body.id) := by
  have hsse : (is_sse_method (some m) && wantsSse) = false := by
    rcases h6 with h6 | h6 <;> simp [h6]
  simp [json_rpc_endpoint, h1, h2, hsse, h3, h4, h5, idText]

/-- Witness for C6 (amended): method `"bogus"` without SSE. -/
theorem C6_method_not_found_witness :
    json_rpc_endpoint predict_world stream_hi []
      { jsonrpc := some "2.0", method := some "bogus", params := none, id := .num 3 }
      false "task_g" "a1" =
      ([], .rpcError 200 (-32601) "Method not found: bogus" (.num 3)) :=
  C6_method_not_found predict_world stream_hi []
    { jsonrpc := some "2.0", method := some "bogus", params := none, id := .num 3 }
    false "task_g" "a1" "bogus" rfl rfl (by decide) (by decide) (by decide)
    (Or.inl rfl)

/-- C7: a streaming `tasks/send` emits, in order, a `task.status.update`
announcing state `"working"`, then zero or more `task.artifact.update`
events, then a `task.artifact.done`, then a terminal `task.complete` when
the responder succeeds; when the responder raises, the terminal event is
instead a `task.status.update` with state `"failed"`. -/
theorem C7_stream_event_order (ps : PredictStream) (r : Registry)
    (params : RpcParams) (genId artId : String) :
    (∀ evs, ps (build_request (params.message.getD emptyMessage)) = .ok evs →
      ∃ updates finalParts n,
        (handle_tasks_send_stream ps r params genId artId).2 =
          .statusUpdate (stream_task_id params genId) "working" none ::
            (updates ++
              [.artifactDone (stream_task_id params genId) artId finalParts,
               .taskComplete (stream_task_id params genId) "completed"]) ∧
        updates.map eventType = List.replicate n "task.artifact.update") ∧
    (∀ e, ps (build_request (params.message.getD emptyMessage)) = .error e →
      (handle_tasks_send_stream ps r params genId artId).2 =
        [.statusUpdate (stream_task_id params genId) "working" none,
         .statusUpdate (stream_task_id params genId) "failed" (some e)]) := by
  constructor
  · intro evs hok
    obtain ⟨n, hn⟩ :=
      stream_fold_snd_types (stream_task_id params genId) artId evs "" []
    refine ⟨(evs.foldl (stream_step (stream_task_id params genId) artId) ("", [])).2,
      [{ kind := some "text", type := none,
         text := some (evs.foldl (stream_step (stream_task_id params genId) artId)
           ("", [])).1 }], n, ?_, ?_⟩
    · simp only [handle_tasks_send_stream, create_task, Option.getD_some, hok]
      simp [List.cons_append]
    · simpa using hn
  · intro e herr
    simp [handle_tasks_send_stream, create_task, herr]

/-- Witness for C7: one-item stream from the concrete responder. -/
theorem C7_stream_event_order_witness :
    ∃ updates finalParts n,
      (handle_tasks_send_stream stream_hi [] { message := none, id := none }
          "task_g" "a1").2 =
        .statusUpdate "task_g" "working" none ::
          (updates ++
            [.artifactDone "task_g" "a1" finalParts,
             .taskComplete "task_g" "completed"]) ∧
      updates.map eventType = List.replicate n "task.artifact.update" :=
  (C7_stream_event_order stream_hi [] { message := none, id := none }
    "task_g" "a1").1 _ rfl

/-- C8: the text handed to the responder is the in-order concatenation of the
`text` of every part whose `kind` or `type` is `"text"`; in particular parts
`A` and `B` concatenate to `"AB"`. -/
theorem C8_text_concatenation :
    (∀ message : TaskMessage,
      (build_request message).content = spec_text_concat message.parts) ∧
    extract_content
      [{ kind := some "text", type := none, text := some "A" },
       { kind := some "text", type := none, text := some "B" }] = "AB" := by
  refine ⟨fun message => ?_, by decide⟩
  simp [build_request, extract_content_eq_spec]

/-- C9: in every reachable registry, a task whose state is neither `"failed"`
nor `"canceled"` (i.e. `submitted`, `working` or `completed`) has a `none`
status message. -/
theorem C9_message_only_failed_canceled {r : Registry} (h : Reachable r)
    (tid : String) (t : Task) (hf : findTask r tid = some t)
    (h1 : t.status.state ≠ "failed") (h2 : t.status.state ≠ "canceled") :
    t.status.message = none :=
  MsgInv_reachable h tid t hf h1 h2

/-- Witness for C9: a completed task in a concretely reached registry. -/
theorem C9_message_only_failed_canceled_witness :
    ({ id := "t1", status := { state := "completed", message := none },
        artifacts := some [response_artifact "world"] } : Task).status.message = none :=
  C9_message_only_failed_canceled
    (Reachable.send predict_world { message := none, id := some "t1" } "task_g"
      Reachable.empty)
    "t1" _ (by decide) (by decide) (by decide)

/-- C10: a `tasks/send` whose caller-supplied id already names a stored task
replaces that record with a freshly constructed one: the outcome (returned
record and stored record) is identical to running the same send against an
empty registry, so the previously recorded status and artifacts are
discarded. -/
theorem C10_send_replaces_existing (predict : Predict) (r : Registry)
    (params : RpcParams) (genId tid : String) (t0 : Task)
    (hid : params.id = some tid) (hold : findTask r tid = some t0) :
    (handle_tasks_send predict r params genId).2 =
      (handle_tasks_send predict [] params genId).2 ∧
    findTask (handle_tasks_send predict r params genId).1 tid =
      some ((handle_tasks_send predict [] params genId).2) := by
  rw [handle_tasks_send_spec, handle_tasks_send_spec]
  refine ⟨rfl, ?_⟩
  rw [findTask_putTask]
  simp [hid]

/-- Witness for C10: overwriting a stored completed task `"t1"` that carries
an old artifact. -/
theorem C10_send_replaces_existing_witness :
    (handle_tasks_send predict_world [("t1", old_t1)]
        { message := none, id := some "t1" } "task_g").2 =
      (handle_tasks_send predict_world [] { message := none, id := some "t1" }
        "task_g").2 ∧
    findTask (handle_tasks_send predict_world [("t1", old_t1)]
        { message := none, id := some "t1" } "task_g").1 "t1" =
      some ((handle_tasks_send predict_world [] { message := none, id := some "t1" }
        "task_g").2) :=
  C10_send_replaces_existing predict_world [("t1", old_t1)]
    { message := none, id := some "t1" } "task_g" "t1" old_t1 rfl (by decide)

end A2A
